import Mathlib

/-!
Verification of the pynl-cell modem driver against its specification.

The Python sources are shallowly embedded: strings are lists of characters
(`Str`), bytes are lists of naturals, fallible code returns `Option`/`Except`,
and stateful code is explicit state passing. Each definition mirrors one
Python function from the repository, named after it where Lean allows.
-/

/-- Strings, modelled as lists of characters (Python `str`). -/
abbrev Str := List Char

/-- Characters stripped by Python's `str.strip`/`lstrip`/`rstrip` with no
arguments (ASCII whitespace as used by this code base). -/
def pySpace (c : Char) : Bool :=
  c == ' ' || c == '\t' || c == '\n' || c == '\r' || c == '\x0b' || c == '\x0c'

/-- Python `str.lstrip()`. -/
def lstripWS (s : Str) : Str := s.dropWhile pySpace

/-- Python `str.rstrip()`. -/
def rstripWS (s : Str) : Str := (s.reverse.dropWhile pySpace).reverse

/-- Python `str.strip()`. -/
def stripWS (s : Str) : Str := rstripWS (lstripWS s)

/-- Helper for `splitOnChar`, accumulating the current field reversed. -/
def splitOnCharAux (sep : Char) (acc : Str) : Str → List Str
  | [] => [acc.reverse]
  | c :: rest =>
      if c = sep then acc.reverse :: splitOnCharAux sep [] rest
      else splitOnCharAux sep (c :: acc) rest

/-- Python `str.split(sep)` for a one-character separator: always returns at
least one field, empty fields included. -/
def splitOnChar (sep : Char) (s : Str) : List Str := splitOnCharAux sep [] s

/-- The numeric value of an ASCII decimal digit, if `c` is one. -/
def digitVal (c : Char) : Option Nat :=
  if '0' ≤ c ∧ c ≤ '9' then some (c.toNat - 48) else none

/-- Value of a nonempty all-digit string (helper for `pyIntOfStr`). -/
def digitsValAux (acc : Nat) : Str → Option Nat
  | [] => some acc
  | c :: rest =>
      match digitVal c with
      | none => none
      | some d => digitsValAux (acc * 10 + d) rest

/-- Value of a digit string; `none` when empty or containing a non-digit. -/
def digitsVal : Str → Option Nat
  | [] => none
  | s => digitsValAux 0 s

/-- Python's `int(s)` on an ASCII decimal string: surrounding whitespace and a
single leading sign are tolerated, and the digits must be nonempty. (Python
additionally accepts underscore digit separators and non-ASCII digits; no
string in this code base uses either, so they are not modelled.) -/
def pyIntOfStr (s : Str) : Option Int :=
  match stripWS s with
  | '+' :: rest => (digitsVal rest).map (fun n => (n : Int))
  | '-' :: rest => (digitsVal rest).map (fun n => -(n : Int))
  | rest => (digitsVal rest).map (fun n => (n : Int))

/-- Python `str.startswith(pfx)`. -/
def strStartsWith : Str → Str → Bool
  | [], _ => true
  | _ :: _, [] => false
  | a :: as, b :: bs => a == b && strStartsWith as bs

/-- Python `str.find(pat)`: index of the first occurrence of `pat`, `none`
standing for Python's `-1`. -/
def strFind (pat : Str) : Str → Option Nat
  | [] => if strStartsWith pat [] then some 0 else none
  | s@(_ :: t) =>
      if strStartsWith pat s then some 0
      else (strFind pat t).map (· + 1)

/-- Python `str.rfind(pat)`: index of the last occurrence of `pat`. -/
def strRfind (pat : Str) : Str → Option Nat
  | [] => if strStartsWith pat [] then some 0 else none
  | s@(_ :: t) =>
      match strRfind pat t with
      | some i => some (i + 1)
      | none => if strStartsWith pat s then some 0 else none

/-- Python `pat in s` (substring test). -/
def strContains (pat s : Str) : Bool := (strFind pat s).isSome

/-! ## Error tables (`nl_cell/at/cmeError.py`, `nl_cell/at/cms.py`)

The two vendor error families are class attribute tables in the source;
`getName`/`getCode` iterate `__dict__.items()` in definition order and return
the first mapping whose code (resp. name) matches. They are embedded as
name-code pair lists in the source's definition order, and the lookups as
first-match scans. -/

/-- Embeds `CmeError.getCode` / `CmsError.getCode`: first table entry with this name. -/
def tableGetCode (tbl : List (Str × Int)) (name : Str) : Option Int :=
  match tbl with
  | [] => none
  | p :: rest => if p.1 = name then some p.2 else tableGetCode rest name

/-- Embeds `CmeError.getName` / `CmsError.getName`: first table entry with this code. -/
def tableGetName (tbl : List (Str × Int)) (code : Int) : Option Str :=
  match tbl with
  | [] => none
  | p :: rest => if p.2 = code then some p.1 else tableGetName rest code

/-- The `CmeError` table, in source definition order. -/
def cmeErrorTable : List (Str × Int) := [
  (("PHONE_FAILURE").data, 0),
  (("NO_CONNECTION_TO_PHONE").data, 1),
  (("PHONE_ADAPTER_LINK_RESERVED").data, 2),
  (("OPERATION_NOT_ALLOWED").data, 3),
  (("OPERATION_NOT_SUPPORTED").data, 4),
  (("PH_SIM_PIN_REQUIRED").data, 5),
  (("PH_FSIM_PIN_REQUIRED").data, 6),
  (("PH_FSIM_PUK_REQUIRED").data, 7),
  (("SIM_NOT_INSERTED").data, 10),
  (("SIM_PIN_REQUIRED").data, 11),
  (("SIM_PUK_REQUIRED").data, 12),
  (("SIM_FAILURE").data, 13),
  (("SIM_BUSY").data, 14),
  (("SIM_WRONG").data, 15),
  (("INCORRECT_PASSWORD").data, 16),
  (("SIM_PIN2_REQUIRED").data, 17),
  (("SIM_PUK2_REQUIRED").data, 18),
  (("MEMORY_FULL").data, 20),
  (("INVALID_INDEX").data, 21),
  (("NOT_FOUND").data, 22),
  (("MEMORY_FAILURE").data, 23),
  (("TEXT_STRING_TOO_LONG").data, 24),
  (("INVALID_CHARACTERS_IN_TEXT_STRING").data, 25),
  (("DIAL_STRING_TOO_LONG").data, 26),
  (("INVALID_CHARACTERS_IN_DIAL_STRING").data, 27),
  (("NO_NETWORK_SERVICE").data, 30),
  (("NETWORK_TIMEOUT").data, 31),
  (("NETWORK_NOT_ALLOWED_EMERGENCY_CALLS_ONLY").data, 32),
  (("NETWORK_PERSONALIZATION_PIN_REQUIRED").data, 40),
  (("NETWORK_PERSONALIZATION_PUK_REQUIRED").data, 41),
  (("NETWORK_SUBSET_PERSONALIZATION_PIN_REQUIRED").data, 42),
  (("NETWORK_SUBSET_PERSONALIZATION_PUK_REQUIRED").data, 43),
  (("SERVICE_PROVIDER_PERSONALIZATION_PIN_REQUIRED").data, 44),
  (("SERVICE_PROVIDER_PERSONALIZATION_PUK_REQUIRED").data, 45),
  (("CORPORATE_PERSONALIZATION_PIN_REQUIRED").data, 46),
  (("CORPORATE_PERSONALIZATION_PUK_REQUIRED").data, 47),
  (("PH_SIM_PUK_REQUIRED").data, 48),
  (("INCORRECT_PARAMETERS").data, 50),
  (("UNKNOWN_ERROR").data, 100),
  (("ILLEGAL_MS").data, 103),
  (("ILLEGAL_ME").data, 106),
  (("GPRS_SERVICES_NOT_ALLOWED").data, 107),
  (("PLMN_NOT_ALLOWED").data, 111),
  (("LOCATION_AREA_NOT_ALLOWED").data, 112),
  (("ROAMING_NOT_ALLOWED_IN_THIS_LOCATION_AREA").data, 113),
  (("OPERATION_TEMPORARY_NOT_ALLOWED").data, 126),
  (("SERVICE_OPERATION_NOT_SUPPORTED").data, 132),
  (("REQUESTED_SERVICE_OPTION_NOT_SUBSCRIBED").data, 133),
  (("SERVICE_OPTION_TEMPORARY_OUT_OF_ORDER").data, 134),
  (("UNSPECIFIED_GPRS_ERROR").data, 148),
  (("PDP_AUTHENTICATION_FAILURE").data, 149),
  (("INVALID_MOBILE_CLASS").data, 150),
  (("OPERATION_TEMPORARILY_NOT_ALLOWED").data, 256),
  (("CALL_BARRED").data, 257),
  (("PHONE_IS_BUSY").data, 258),
  (("USER_ABORT").data, 259),
  (("INVALID_DIAL_STRING").data, 260),
  (("SS_NOT_EXECUTED").data, 261),
  (("SIM_BLOCKED").data, 262),
  (("INVALID_BLOCK").data, 263),
  (("SIM_POWERED_DOWN").data, 772)]

/-- The `CmsError` table, in source definition order. -/
def cmsErrorTable : List (Str × Int) := [
  (("UNASSIGNED_NUMBER").data, 1),
  (("OPERATOR_DETERMINED_BARRING").data, 8),
  (("CALL_BARED").data, 10),
  (("SHORT_MESSAGE_TRANSFER_REJECTED").data, 21),
  (("DESTINATION_OUT_OF_SERVICE").data, 27),
  (("UNINDENTIFIED_SUBSCRIBER").data, 28),
  (("FACILITY_REJECTED").data, 29),
  (("UNKNOWN_SUBSCRIBER").data, 30),
  (("NETWORK_OUT_OF_ORDER").data, 38),
  (("TEMPORARY_FAILURE").data, 41),
  (("CONGESTION").data, 42),
  (("RECOURCES_UNAVAILABLE").data, 47),
  (("REQUESTED_FACILITY_NOT_SUBSCRIBED").data, 50),
  (("REQUESTED_FACILITY_NOT_IMPLEMENTED").data, 69),
  (("INVALID_SHORT_MESSAGE_TRANSFER_REFERENCE_VALUE").data, 81),
  (("INVALID_MESSAGE_UNSPECIFIED").data, 95),
  (("INVALID_MANDATORY_INFORMATION").data, 96),
  (("MESSAGE_TYPE_NON_EXISTENT_OR_NOT_IMPLEMENTED").data, 97),
  (("MESSAGE_NOT_COMPATIBLE_WITH_SHORT_MESSAGE_PROTOCOL").data, 98),
  (("INFORMATION_ELEMENT_NON_EXISTENT_OR_NOT_IMPLEMENTE").data, 99),
  (("PROTOCOL_ERROR_UNSPECIFIED").data, 111),
  (("INTERNETWORKING_UNSPECIFIED").data, 127),
  (("TELEMATIC_INTERNETWORKING_NOT_SUPPORTED").data, 128),
  (("SHORT_MESSAGE_TYPE_0_NOT_SUPPORTED").data, 129),
  (("CANNOT_REPLACE_SHORT_MESSAGE").data, 130),
  (("UNSPECIFIED_TP_PID_ERROR").data, 143),
  (("DATA_CODE_SCHEME_NOT_SUPPORTED").data, 144),
  (("MESSAGE_CLASS_NOT_SUPPORTED").data, 145),
  (("UNSPECIFIED_TP_DCS_ERROR").data, 159),
  (("COMMAND_CANNOT_BE_ACTIONED").data, 160),
  (("COMMAND_UNSUPPORTED").data, 161),
  (("UNSPECIFIED_TP_COMMAND_ERROR").data, 175),
  (("TPDU_NOT_SUPPORTED").data, 176),
  (("SC_BUSY").data, 192),
  (("NO_SC_SUBSCRIPTION").data, 193),
  (("SC_SYSTEM_FAILURE").data, 194),
  (("INVALID_SME_ADDRESS").data, 195),
  (("DESTINATION_SME_BARRED").data, 196),
  (("SM_REJECTED_DUPLICATE_SM").data, 197),
  (("TP_VPF_NOT_SUPPORTED").data, 198),
  (("TP_VP_NOT_SUPPORTED").data, 199),
  (("D0_SIM_SMS_STORAGE_FULL").data, 208),
  (("NO_SMS_STORAGE_CAPABILITY_IN_SIM").data, 209),
  (("ERROR_IN_MS").data, 210),
  (("MEMORY_CAPACITY_EXCEEDED").data, 211),
  (("SIM_APPLICATION_TOOLKIT_BUSY").data, 212),
  (("SIM_DATA_DOWNLOAD_ERROR").data, 213),
  (("UNSPECIFIED_ERROR_CAUSE").data, 255),
  (("ME_FAILURE").data, 300),
  (("SMS_SERVICE_OF_ME_RESERVED").data, 301),
  (("OPERATION_NOT_ALLOWED").data, 302),
  (("OPERATION_NOT_SUPPORTED").data, 303),
  (("INVALID_PDU_MODE_PARAMETER").data, 304),
  (("INVALID_TEXT_MODE_PARAMETER").data, 305),
  (("SIM_NOT_INSERTED").data, 310),
  (("SIM_PIN_REQUIRED").data, 311),
  (("PH_SIM_PIN_REQUIRED").data, 312),
  (("SIM_FAILURE").data, 313),
  (("SIM_BUSY").data, 314),
  (("SIM_WRONG").data, 315),
  (("SIM_PUK_REQUIRED").data, 316),
  (("SIM_PIN2_REQUIRED").data, 317),
  (("SIM_PUK2_REQUIRED").data, 318),
  (("MEMORY_FAILURE").data, 320),
  (("INVALID_MEMORY_INDEX").data, 321),
  (("MEMORY_FULL").data, 322),
  (("SMSC_ADDRESS_UNKNOWN").data, 330),
  (("NO_NETWORK_SERVICE").data, 331),
  (("NETWORK_TIMEOUT").data, 332),
  (("NO_CNMA_EXPECTED").data, 340),
  (("UNKNOWN_ERROR").data, 500),
  (("USER_ABORT").data, 512),
  (("UNABLE_TO_STORE").data, 513),
  (("INVALID_STATUS").data, 514),
  (("DEVICE_BUSY_OR_INVALID_CHARACTER_IN_STRING").data, 515),
  (("INVALID_LENGTH").data, 516),
  (("INVALID_CHARACTER_IN_PDU").data, 517),
  (("INVALID_PARAMETER").data, 518),
  (("INVALID_LENGTH_OR_CHARACTER").data, 519),
  (("INVALID_CHARACTER_IN_TEXT").data, 520),
  (("TIMER_EXPIRED").data, 521),
  (("OPERATION_TEMPORARY_NOT_ALLOWED").data, 522),
  (("SIM_NOT_READY").data, 532),
  (("CELL_BROADCAST_ERROR_UNKNOWN").data, 534),
  (("PROTOCOL_STACK_BUSY").data, 535),
  (("INVALID_PARAMETER2").data, 538)]

example : tableGetCode cmeErrorTable (("SIM_PIN_REQUIRED").data) = some 11 := by decide
example : tableGetName cmsErrorTable 311 = some (("SIM_PIN_REQUIRED").data) := by decide

/-! ## Result model (`nl_cell/at/result.py`) -/

/-- Embeds `Result.Error.General` variant tag. -/
def ErrorGeneral : Nat := 0

/-- Embeds `Result.Error.Cme` variant tag. -/
def ErrorCme : Nat := 1

/-- Embeds `Result.Error.Cms` variant tag. -/
def ErrorCms : Nat := 2

/-- Embeds `Result.Error`: a variant tag plus an optional code. Equality in the
source compares the `(variant, code)` pair, which is structural equality
here. -/
structure ResultError where
  variant : Nat
  code : Option Int
deriving DecidableEq, Repr

/-- Embeds `Result`: an optional error; `none` is the `OK` result. Source equality
again compares the contained error structurally. -/
structure ATResult where
  error : Option ResultError
deriving DecidableEq, Repr

/-- The leading-`+` strip at the top of `Result.Error.makeFromString`. -/
def dropPlus : Str → Str
  | '+' :: rest => rest
  | s => s

/-- Embeds `Result.Error.makeFromString`: decodes a (stripped) terminal error line. -/
def errorMakeFromString (string : Str) : Option ResultError :=
  -- Sometimes the strings start with '+', so remove that if present
  let string := dropPlus string
  -- If this is the basic error, nothing left to do
  if string = ("ERROR").data then some ⟨ErrorGeneral, none⟩
  else
    -- CME/CMS classification is by prefix of the whole line
    let variant? : Option Nat :=
      if strStartsWith (("CME").data) string then some ErrorCme
      else if strStartsWith (("CMS").data) string then some ErrorCms
      else none
    match variant? with
    | none => none
    | some variant =>
      let fields := splitOnChar ':' string
      if fields.length < 2 then none
      else
        -- fields[1].lstrip()
        let name := lstripWS (fields.getD 1 [])
        match pyIntOfStr name with
        | some n => some ⟨variant, some n⟩
        | none =>
          let code :=
            if variant = ErrorCme then tableGetCode cmeErrorTable name
            else tableGetCode cmsErrorTable name
          match code with
          | none => none
          | some c => some ⟨variant, some c⟩

/-- Embeds `Result.makeFromString`: `OK`, else try the error decoder. -/
def resultMakeFromString (string : Str) : Option ATResult :=
  if string = ("OK").data then some ⟨none⟩
  else
    match errorMakeFromString string with
    | none => none
    | some error => some ⟨some error⟩

/-- The status-line grammar exactly as the specification words it (for
comparison against `resultMakeFromString`): `OK`, the generic `ERROR`, or
`<FAMILY> ERROR: <code-or-name>` with FAMILY `CME` or `CMS`, an optional
leading `+`, and `<code-or-name>` an integer or a name from that family's
table. -/
def specStatusLine (s : Str) : Bool :=
  let codeOrName (tbl : List (Str × Int)) (rest : Str) : Bool :=
    (pyIntOfStr rest).isSome || (tableGetCode tbl rest).isSome
  let familyLine (t : Str) : Bool :=
    (strStartsWith (("CME ERROR: ").data) t && codeOrName cmeErrorTable (t.drop 11)) ||
    (strStartsWith (("CMS ERROR: ").data) t && codeOrName cmsErrorTable (t.drop 11))
  s == ("OK").data || s == ("ERROR").data ||
    familyLine s ||
    (match s with
     | '+' :: t => familyLine t
     | _ => false)

example : resultMakeFromString (("OK").data) = some ⟨none⟩ := by decide
example : resultMakeFromString (("+CME ERROR: 11").data) =
    some ⟨some ⟨ErrorCme, some 11⟩⟩ := by decide
example : resultMakeFromString (("+CME ERROR: SIM_PIN_REQUIRED").data) =
    some ⟨some ⟨ErrorCme, some 11⟩⟩ := by decide
example : resultMakeFromString (("CME: 11").data) =
    some ⟨some ⟨ErrorCme, some 11⟩⟩ := by decide
example : specStatusLine (("CME: 11").data) = false := by decide
example : specStatusLine (("+CME ERROR: 11").data) = true := by decide

/-- With pairwise-distinct names, the name scan finds each entry's own code. -/
theorem tableGetCode_mem (tbl : List (Str × Int)) (p : Str × Int)
    (hnodup : (tbl.map Prod.fst).Nodup) (hmem : p ∈ tbl) :
    tableGetCode tbl p.1 = some p.2 := by
  induction tbl with
  | nil => cases hmem
  | cons q rest ih =>
    rw [List.map_cons, List.nodup_cons] at hnodup
    rcases List.mem_cons.mp hmem with rfl | hmem'
    · simp [tableGetCode]
    · have hne : q.1 ≠ p.1 := by
        intro h
        exact hnodup.1 (h ▸ List.mem_map_of_mem Prod.fst hmem')
      simp only [tableGetCode, if_neg hne]
      exact ih hnodup.2 hmem'

/-- With pairwise-distinct codes, the code scan finds each entry's own name. -/
theorem tableGetName_mem (tbl : List (Str × Int)) (p : Str × Int)
    (hnodup : (tbl.map Prod.snd).Nodup) (hmem : p ∈ tbl) :
    tableGetName tbl p.2 = some p.1 := by
  induction tbl with
  | nil => cases hmem
  | cons q rest ih =>
    rw [List.map_cons, List.nodup_cons] at hnodup
    rcases List.mem_cons.mp hmem with rfl | hmem'
    · simp [tableGetName]
    · have hne : q.2 ≠ p.2 := by
        intro h
        exact hnodup.1 (h ▸ List.mem_map_of_mem Prod.snd hmem')
      simp only [tableGetName, if_neg hne]
      exact ih hnodup.2 hmem'

/-- The CME table's names and codes are each pairwise distinct. -/
theorem cmeErrorTable_nodup :
    (cmeErrorTable.map Prod.fst).Nodup ∧ (cmeErrorTable.map Prod.snd).Nodup := by
  constructor <;> decide

/-- The CMS table's names and codes are each pairwise distinct. -/
theorem cmsErrorTable_nodup :
    (cmsErrorTable.map Prod.fst).Nodup ∧ (cmsErrorTable.map Prod.snd).Nodup := by
  constructor <;> decide

/-- C1 (counterexample): the status string `CME: 11` is not of any form the
claim admits (`OK`, `ERROR`, or `<FAMILY> ERROR: <code-or-name>` with optional
`+`), yet `Result.makeFromString` parses it to a CME error with code 11
rather than to no Result. -/
theorem result_parser_accepts_nonconforming_line :
    specStatusLine (("CME: 11").data) = false ∧
    resultMakeFromString (("CME: 11").data) = some ⟨some ⟨ErrorCme, some 11⟩⟩ :=
  ⟨by decide, by decide⟩

/-- The code-or-name field the error decoder examines: the text between the
first and second colon of the `+`-stripped line, left-stripped
(`fields[1].lstrip()` in the source). -/
def errorCodeField (s : Str) : Str :=
  lstripWS ((splitOnChar ':' (dropPlus s)).getD 1 [])

/-- A line starting (after `+`-stripping) with `CME` is never the literal
`ERROR` and never the literal `OK`. -/
theorem cme_prefix_not_basic {s : Str}
    (hpre : strStartsWith (("CME").data) (dropPlus s) = true) :
    s ≠ ("OK").data ∧ dropPlus s ≠ ("ERROR").data := by
  constructor
  · intro heq
    rw [heq] at hpre
    exact absurd hpre (by decide)
  · intro heq
    rw [heq] at hpre
    exact absurd hpre (by decide)

/-- A line starting (after `+`-stripping) with `CMS` is never the literal
`ERROR` and never the literal `OK`. -/
theorem cms_prefix_not_basic {s : Str}
    (hpre : strStartsWith (("CMS").data) (dropPlus s) = true) :
    s ≠ ("OK").data ∧ dropPlus s ≠ ("ERROR").data := by
  constructor
  · intro heq
    rw [heq] at hpre
    exact absurd hpre (by decide)
  · intro heq
    rw [heq] at hpre
    exact absurd hpre (by decide)

/-- Full behavior of the parser on every CME-prefixed line with a colon:
the field is tried as an integer, then as a CME table name. -/
theorem resultMakeFromString_cme (s : Str)
    (hpre : strStartsWith (("CME").data) (dropPlus s) = true)
    (hflen : 2 ≤ (splitOnChar ':' (dropPlus s)).length) :
    resultMakeFromString s =
      (match pyIntOfStr (errorCodeField s) with
       | some n => some ⟨some ⟨ErrorCme, some n⟩⟩
       | none =>
         match tableGetCode cmeErrorTable (errorCodeField s) with
         | none => none
         | some c => some ⟨some ⟨ErrorCme, some c⟩⟩) := by
  obtain ⟨hsOK, hERR⟩ := cme_prefix_not_basic hpre
  rw [resultMakeFromString, if_neg hsOK]
  have herr : errorMakeFromString s =
      (match pyIntOfStr (errorCodeField s) with
       | some n => some ⟨ErrorCme, some n⟩
       | none =>
         match tableGetCode cmeErrorTable (errorCodeField s) with
         | none => none
         | some c => some ⟨ErrorCme, some c⟩) := by
    simp only [errorMakeFromString, errorCodeField, if_neg hERR, hpre,
      if_true, if_neg (by omega : ¬(splitOnChar ':' (dropPlus s)).length < 2)]
  rw [herr]
  cases pyIntOfStr (errorCodeField s) with
  | some n => rfl
  | none =>
    cases tableGetCode cmeErrorTable (errorCodeField s) with
    | some c => rfl
    | none => rfl

/-- Full behavior of the parser on every CMS-prefixed (and not
CME-prefixed) line with a colon: the field is tried as an integer, then as
a CMS table name. -/
theorem resultMakeFromString_cms (s : Str)
    (hnot : strStartsWith (("CME").data) (dropPlus s) = false)
    (hpre : strStartsWith (("CMS").data) (dropPlus s) = true)
    (hflen : 2 ≤ (splitOnChar ':' (dropPlus s)).length) :
    resultMakeFromString s =
      (match pyIntOfStr (errorCodeField s) with
       | some n => some ⟨some ⟨ErrorCms, some n⟩⟩
       | none =>
         match tableGetCode cmsErrorTable (errorCodeField s) with
         | none => none
         | some c => some ⟨some ⟨ErrorCms, some c⟩⟩) := by
  obtain ⟨hsOK, hERR⟩ := cms_prefix_not_basic hpre
  rw [resultMakeFromString, if_neg hsOK]
  have herr : errorMakeFromString s =
      (match pyIntOfStr (errorCodeField s) with
       | some n => some ⟨ErrorCms, some n⟩
       | none =>
         match tableGetCode cmsErrorTable (errorCodeField s) with
         | none => none
         | some c => some ⟨ErrorCms, some c⟩) := by
    simp only [errorMakeFromString, errorCodeField, if_neg hERR, hnot,
      Bool.false_eq_true, if_false, hpre, if_true,
      if_neg (by omega : ¬(splitOnChar ':' (dropPlus s)).length < 2),
      if_neg (by decide : ¬ErrorCms = ErrorCme)]
  rw [herr]
  cases pyIntOfStr (errorCodeField s) with
  | some n => rfl
  | none =>
    cases tableGetCode cmsErrorTable (errorCodeField s) with
    | some c => rfl
    | none => rfl

/-- C1 (amended): the result parser accepts `OK`, `ERROR` with an optional
leading `+`, and any line that — after stripping an optional leading `+` —
merely starts with `CME` or `CMS` and contains a colon: the field after the
first colon, left-stripped, is parsed as an integer and otherwise looked up
in that family's table, the family determined by the `CME`/`CMS` prefix
alone (line rejected when both fail, or when no colon follows the family
prefix); so `+CME ERROR: 11` and `+CME ERROR: SIM_PIN_REQUIRED` parse to
structurally equal Results (CME family, code 11). A status string that is
not `OK`, not (after `+`-stripping) `ERROR`, and does not (after
`+`-stripping) start with `CME` or `CMS`, parses to no Result. -/
theorem result_parser_amended :
    resultMakeFromString (("OK").data) = some ⟨none⟩ ∧
    (∀ s : Str, dropPlus s = ("ERROR").data →
      resultMakeFromString s = some ⟨some ⟨ErrorGeneral, none⟩⟩) ∧
    (∀ s : Str, strStartsWith (("CME").data) (dropPlus s) = true →
      2 ≤ (splitOnChar ':' (dropPlus s)).length →
      resultMakeFromString s =
        (match pyIntOfStr (errorCodeField s) with
         | some n => some ⟨some ⟨ErrorCme, some n⟩⟩
         | none =>
           match tableGetCode cmeErrorTable (errorCodeField s) with
           | none => none
           | some c => some ⟨some ⟨ErrorCme, some c⟩⟩)) ∧
    (∀ s : Str, strStartsWith (("CME").data) (dropPlus s) = false →
      strStartsWith (("CMS").data) (dropPlus s) = true →
      2 ≤ (splitOnChar ':' (dropPlus s)).length →
      resultMakeFromString s =
        (match pyIntOfStr (errorCodeField s) with
         | some n => some ⟨some ⟨ErrorCms, some n⟩⟩
         | none =>
           match tableGetCode cmsErrorTable (errorCodeField s) with
           | none => none
           | some c => some ⟨some ⟨ErrorCms, some c⟩⟩)) ∧
    (∀ s : Str, (strStartsWith (("CME").data) (dropPlus s) = true ∨
        strStartsWith (("CMS").data) (dropPlus s) = true) →
      (splitOnChar ':' (dropPlus s)).length < 2 →
      resultMakeFromString s = none) ∧
    resultMakeFromString (("+CME ERROR: 11").data) =
      some ⟨some ⟨ErrorCme, some 11⟩⟩ ∧
    resultMakeFromString (("+CME ERROR: SIM_PIN_REQUIRED").data) =
      some ⟨some ⟨ErrorCme, some 11⟩⟩ ∧
    (∀ s : Str, s ≠ ("OK").data → dropPlus s ≠ ("ERROR").data →
      strStartsWith (("CME").data) (dropPlus s) = false →
      strStartsWith (("CMS").data) (dropPlus s) = false →
      resultMakeFromString s = none) := by
  refine ⟨by decide, ?_, resultMakeFromString_cme, resultMakeFromString_cms,
    ?_, by decide, by decide, ?_⟩
  · intro s h
    have hsOK : s ≠ ("OK").data := by
      intro heq
      rw [heq] at h
      exact absurd h (by decide)
    have herr : errorMakeFromString s = some ⟨ErrorGeneral, none⟩ := by
      simp only [errorMakeFromString, if_pos h]
    rw [resultMakeFromString, if_neg hsOK, herr]
  · intro s hfam hflen
    rcases hfam with hpre | hpre
    · obtain ⟨hsOK, hERR⟩ := cme_prefix_not_basic hpre
      have herr : errorMakeFromString s = none := by
        simp only [errorMakeFromString, if_neg hERR, hpre, if_true,
          if_pos hflen]
      rw [resultMakeFromString, if_neg hsOK, herr]
    · obtain ⟨hsOK, hERR⟩ := cms_prefix_not_basic hpre
      have herr : errorMakeFromString s = none := by
        cases hcme : strStartsWith (("CME").data) (dropPlus s) with
        | true =>
          simp only [errorMakeFromString, if_neg hERR, hcme, if_true,
            if_pos hflen]
        | false =>
          simp only [errorMakeFromString, if_neg hERR, hcme,
            Bool.false_eq_true, if_false, hpre, if_true, if_pos hflen]
      rw [resultMakeFromString, if_neg hsOK, herr]
  · intro s h1 h2 h3 h4
    have herr : errorMakeFromString s = none := by
      unfold errorMakeFromString
      simp [h2, h3, h4]
    simp [resultMakeFromString, if_neg h1, herr]

/-- C1 (witness): the universal clauses at concrete status strings — the
CMS acceptance clause at `CMS ERROR: SIM_BUSY` (table name, code 314), the
CME acceptance clause at the nonconforming-but-accepted `CME: 77`, the
generic-error clause at `+ERROR`, and the rejection clause at `FOO`. -/
theorem result_parser_amended_witness :
    resultMakeFromString (("CMS ERROR: SIM_BUSY").data) =
      some ⟨some ⟨ErrorCms, some 314⟩⟩ ∧
    resultMakeFromString (("CME: 77").data) =
      some ⟨some ⟨ErrorCme, some 77⟩⟩ ∧
    resultMakeFromString (("+ERROR").data) =
      some ⟨some ⟨ErrorGeneral, none⟩⟩ ∧
    resultMakeFromString (("FOO").data) = none :=
  ⟨(result_parser_amended.2.2.2.1 (("CMS ERROR: SIM_BUSY").data)
      (by decide) (by decide) (by decide)).trans (by decide),
   (result_parser_amended.2.2.1 (("CME: 77").data)
      (by decide) (by decide)).trans (by decide),
   result_parser_amended.2.1 (("+ERROR").data) (by decide),
   result_parser_amended.2.2.2.2.2.2.2 (("FOO").data)
     (by decide) (by decide) (by decide) (by decide)⟩

/-- C2: for each entry of the CME and CMS tables, `getName` after `getCode`
returns the entry's own name and `getCode` after `getName` returns the
entry's own code — the two lookups are mutually inverse over the table
entries. -/
theorem error_table_lookups_roundtrip :
    (∀ p ∈ cmeErrorTable,
      (tableGetCode cmeErrorTable p.1).bind (tableGetName cmeErrorTable) =
        some p.1 ∧
      (tableGetName cmeErrorTable p.2).bind (tableGetCode cmeErrorTable) =
        some p.2) ∧
    (∀ p ∈ cmsErrorTable,
      (tableGetCode cmsErrorTable p.1).bind (tableGetName cmsErrorTable) =
        some p.1 ∧
      (tableGetName cmsErrorTable p.2).bind (tableGetCode cmsErrorTable) =
        some p.2) := by
  constructor
  · intro p hp
    constructor
    · rw [tableGetCode_mem cmeErrorTable p cmeErrorTable_nodup.1 hp,
        Option.some_bind]
      exact tableGetName_mem cmeErrorTable p cmeErrorTable_nodup.2 hp
    · rw [tableGetName_mem cmeErrorTable p cmeErrorTable_nodup.2 hp,
        Option.some_bind]
      exact tableGetCode_mem cmeErrorTable p cmeErrorTable_nodup.1 hp
  · intro p hp
    constructor
    · rw [tableGetCode_mem cmsErrorTable p cmsErrorTable_nodup.1 hp,
        Option.some_bind]
      exact tableGetName_mem cmsErrorTable p cmsErrorTable_nodup.2 hp
    · rw [tableGetName_mem cmsErrorTable p cmsErrorTable_nodup.2 hp,
        Option.some_bind]
      exact tableGetCode_mem cmsErrorTable p cmsErrorTable_nodup.1 hp

/-- C2 (witness): the round trip at the concrete CME entry
`PHONE_FAILURE` ↦ 0. -/
theorem error_table_lookups_roundtrip_witness :
    (tableGetCode cmeErrorTable (("PHONE_FAILURE").data)).bind
      (tableGetName cmeErrorTable) = some (("PHONE_FAILURE").data) :=
  (error_table_lookups_roundtrip.1 ((("PHONE_FAILURE").data, 0))
    (by decide)).1

/-! ## DFU header formatting (`nl_cell/modem/nano/dfu.py`)

Payloads are byte strings, embedded as lists of byte values. `struct.pack`
and `struct.unpack` with format `"I"` are 32-bit little-endian unsigned
(the platforms this driver targets are little-endian, matching the spec's
stated wire format). -/

/-- Embeds `struct.pack("I", n)`: four little-endian bytes. -/
def le32 (n : Nat) : List Nat :=
  [n % 256, n / 256 % 256, n / 65536 % 256, n / 16777216 % 256]

/-- Embeds `struct.unpack("I", b)[0]` on a four-byte slice. -/
def unpack32 (b : List Nat) : Nat :=
  b.getD 0 0 + 256 * b.getD 1 0 + 65536 * b.getD 2 0 + 16777216 * b.getD 3 0

/-- Embeds `Dfu.HeaderSize`. -/
def DfuHeaderSize : Nat := 64

/-- Embeds `Dfu.Magic`. -/
def DfuMagic : Nat := 0xecce1347

/-- Embeds `Dfu.Type` values. -/
def DfuTypeStack : Nat := 0

/-- Embeds `Dfu.Type.Application`. -/
def DfuTypeApplication : Nat := 1

/-- Embeds `Dfu.Type.Modem`. -/
def DfuTypeModem : Nat := 2

/-- Embeds `Dfu.Type.Key`. -/
def DfuTypeKey : Nat := 3

/-- Embeds `Dfu.Type.Partition`. -/
def DfuTypePartition : Nat := 4

/-- Embeds `Dfu.format`: return payloads already carrying the magic unchanged,
otherwise prepend magic, type and length words zero-padded to
`DfuHeaderSize` bytes. -/
def dfuFormat (data : List Nat) (type : Nat) : List Nat :=
  -- If the data already contains magic, it's probably already formatted
  if data.length > 3 ∧ unpack32 (data.take 4) = DfuMagic then data
  else
    let headerData := le32 DfuMagic ++ le32 type ++ le32 data.length
    let padWords := (DfuHeaderSize - headerData.length) / 4
    headerData ++ (List.replicate padWords (le32 0)).flatten ++ data

example : (dfuFormat [1, 2] DfuTypeApplication).length = 66 := by decide
example : dfuFormat (le32 DfuMagic ++ [9]) DfuTypeKey = le32 DfuMagic ++ [9] := by
  decide

/-- Closed form of `dfuFormat` when the magic guard does not fire: the
header is 12 meaningful bytes plus 52 zero-padding bytes. -/
theorem dfuFormat_eq_header (data : List Nat) (type : Nat)
    (h : ¬(data.length > 3 ∧ unpack32 (data.take 4) = DfuMagic)) :
    dfuFormat data type =
      le32 DfuMagic ++ le32 type ++ le32 data.length ++
        List.replicate 52 0 ++ data := by
  rw [dfuFormat, if_neg h]
  show (le32 DfuMagic ++ le32 type ++ le32 data.length) ++
      (List.replicate
        ((DfuHeaderSize - (le32 DfuMagic ++ le32 type ++ le32 data.length).length) / 4)
        (le32 0)).flatten ++ data = _
  have hlen : (le32 DfuMagic ++ le32 type ++ le32 data.length).length = 12 := by
    simp [le32]
  rw [hlen]
  have hpad : (List.replicate ((DfuHeaderSize - 12) / 4) (le32 0)).flatten =
      List.replicate 52 (0 : Nat) := by decide
  rw [hpad]

/-- Every `dfuFormat` output satisfies the magic guard. -/
theorem dfuFormat_output_magic (data : List Nat) (type : Nat) :
    (dfuFormat data type).length > 3 ∧
      unpack32 ((dfuFormat data type).take 4) = DfuMagic := by
  by_cases h : data.length > 3 ∧ unpack32 (data.take 4) = DfuMagic
  · rw [dfuFormat, if_pos h]
    exact h
  · rw [dfuFormat_eq_header data type h]
    constructor
    · simp [le32]
    · have : le32 DfuMagic ++ le32 type ++ le32 data.length ++
          List.replicate 52 0 ++ data =
          le32 DfuMagic ++ (le32 type ++ le32 data.length ++
            List.replicate 52 0 ++ data) := by
        simp [List.append_assoc]
      rw [this, List.take_left' (by simp [le32] : (le32 DfuMagic).length = 4)]
      decide

/-- C3: DFU header formatting is idempotent, and any payload whose first
four bytes already decode to the magic constant is returned unchanged. -/
theorem dfu_format_idempotent :
    (∀ (data : List Nat) (type : Nat),
      dfuFormat (dfuFormat data type) type = dfuFormat data type) ∧
    (∀ (data : List Nat) (type : Nat),
      data.length > 3 → unpack32 (data.take 4) = DfuMagic →
      dfuFormat data type = data) := by
  have pass : ∀ (d : List Nat) (t : Nat),
      d.length > 3 → unpack32 (d.take 4) = DfuMagic → dfuFormat d t = d := by
    intro d t h1 h2
    rw [dfuFormat, if_pos ⟨h1, h2⟩]
  refine ⟨?_, pass⟩
  intro data type
  have hg := dfuFormat_output_magic data type
  exact pass _ _ hg.1 hg.2

/-- C3 (witness): idempotence and pass-through at the concrete payload
`le32 DfuMagic` (four magic bytes), image type `Application`. -/
theorem dfu_format_idempotent_witness :
    dfuFormat (dfuFormat (le32 DfuMagic) DfuTypeApplication) DfuTypeApplication =
      dfuFormat (le32 DfuMagic) DfuTypeApplication ∧
    dfuFormat (le32 DfuMagic) DfuTypeApplication = le32 DfuMagic :=
  ⟨dfu_format_idempotent.1 (le32 DfuMagic) DfuTypeApplication,
   dfu_format_idempotent.2 (le32 DfuMagic) DfuTypeApplication
     (by decide) (by decide)⟩

/-! ## DFU URCs and the completion handshake
(`nl_cell/modem/nano/urcs.py`, `nl_cell/modem/nano/app.py`) -/

/-- Embeds `Urcs.Dfu.Type` values: Failure. -/
def DfuUrcFailure : Int := 0

/-- Embeds `Urcs.Dfu.Type.Done`. -/
def DfuUrcDone : Int := 1

/-- Embeds `Urcs.Dfu.Type.Progress`. -/
def DfuUrcProgress : Int := 2

/-- Embeds `Urcs.Dfu.Type.Applying`. -/
def DfuUrcApplying : Int := 3

/-- Embeds `Urcs.Dfu`: a parsed DFU URC, a raw integer type plus an optional value. -/
structure DfuUrc where
  type : Int
  value : Option Int
deriving DecidableEq, Repr

/-- Embeds `Urcs.Dfu.makeFromString`: `<prefix>:<contents>` with exactly one colon,
prefix stripping to `DFU`, contents `type[,value]`; `Failure` and `Progress`
must carry a value. Raised `AtError`s are the `Except.error` messages. -/
def dfuUrcMakeFromString (string : Str) : Except Str DfuUrc :=
  let fields := splitOnChar ':' string
  if fields.length ≠ 2 then .error (("DFU URC missing prefix").data)
  else if stripWS (fields.getD 0 []) ≠ ("DFU").data then
    .error (("Invalid DFU URC prefix").data)
  else
    let fields := splitOnChar ',' (stripWS (fields.getD 1 []))
    match pyIntOfStr (fields.getD 0 []) with
    | none => .error (("Invalid DFU URC type").data)
    | some type =>
      if fields.length > 1 then
        match pyIntOfStr (fields.getD 1 []) with
        | none => .error (("Invalid DFU URC value").data)
        | some value => .ok ⟨type, some value⟩
      else
        if type = DfuUrcFailure ∨ type = DfuUrcProgress then
          .error (("DFU URC missing value").data)
        else .ok ⟨type, none⟩

deriving instance DecidableEq for Except

example : dfuUrcMakeFromString (("DFU: 3").data) = .ok ⟨3, none⟩ := by decide
example : dfuUrcMakeFromString (("DFU: 0,4").data) = .ok ⟨0, some 4⟩ := by decide
example : dfuUrcMakeFromString (("DFU: 0").data) =
    .error (("DFU URC missing value").data) := by decide

/-- Outcome of `App._waitForDfuFinish`: success, or one of its raised
errors (the DFU failure `OSError` carries the offending URC line, whose
text contains the failure code). -/
inductive DfuOutcome where
  | ok : DfuOutcome
  | dfuFailed (urc : Str) : DfuOutcome
  | unexpectedUrc (urc : Str) : DfuOutcome
  | parseError (msg : Str) : DfuOutcome
  | noFinalUrc : DfuOutcome
deriving DecidableEq, Repr

/-- The post-boot collection loop of `App._waitForDfuFinish`: count `Done`
URCs, fail on a `Failure` or on anything else, and require at least one
`Done` once the notification window closes. -/
def dfuPostBootLoop : List Str → Nat → DfuOutcome
  | [], count => if count < 1 then .noFinalUrc else .ok
  | urc :: rest, count =>
      match dfuUrcMakeFromString urc with
      | .error e => .parseError e
      | .ok dfu =>
          if dfu.type = DfuUrcDone then dfuPostBootLoop rest (count + 1)
          else if dfu.type = DfuUrcFailure then .dfuFailed urc
          else .unexpectedUrc urc

/-- Embeds `App._waitForDfuFinish`, with the two `getUrcs` windows modelled as the
lists of `DFU:`-filtered notification lines each window delivers, and the
`waitForBoot` call between them assumed to observe the boot marker (the
claim's scenarios include it). Pre-boot: `Failure` aborts, `Done` finishes,
`Applying` moves on (immediately finishing when `reboot` is off), anything
else is skipped; window exhaustion also falls through to the boot wait. -/
def waitForDfuFinish (reboot : Bool) : List Str → List Str → DfuOutcome
  | [], phase2 => dfuPostBootLoop phase2 0
  | urc :: rest, phase2 =>
      match dfuUrcMakeFromString urc with
      | .error e => .parseError e
      | .ok dfu =>
          if dfu.type = DfuUrcFailure then .dfuFailed urc
          else if dfu.type = DfuUrcDone then .ok
          else if dfu.type = DfuUrcApplying then
            if !reboot then .ok else dfuPostBootLoop phase2 0
          else waitForDfuFinish reboot rest phase2

/-- A URC the pre-boot loop of `_waitForDfuFinish` merely skips: it parses,
and its type is none of `Failure`, `Done`, `Applying`. -/
def dfuIgnoredPreBoot (urc : Str) : Bool :=
  match dfuUrcMakeFromString urc with
  | .ok dfu =>
      !(dfu.type == DfuUrcFailure) && !(dfu.type == DfuUrcDone) &&
        !(dfu.type == DfuUrcApplying)
  | .error _ => false

/-- A URC parsing to a `Done` event. -/
def dfuDoneUrc (urc : Str) : Bool :=
  match dfuUrcMakeFromString urc with
  | .ok dfu => dfu.type == DfuUrcDone
  | .error _ => false

example : waitForDfuFinish true [("DFU: 3").data] [("DFU: 1").data] = .ok := by
  decide
example :
    waitForDfuFinish true [("DFU: 1").data, ("DFU: 0,4").data] [] = .ok := by
  decide
example : waitForDfuFinish true [("DFU: 0,4").data] [] =
    .dfuFailed (("DFU: 0,4").data) := by decide

/-- Splitting a `dfuIgnoredPreBoot` fact into its parse and type parts. -/
theorem dfuIgnoredPreBoot_elim {u : Str} (h : dfuIgnoredPreBoot u = true) :
    ∃ dfu, dfuUrcMakeFromString u = .ok dfu ∧
      dfu.type ≠ DfuUrcFailure ∧ dfu.type ≠ DfuUrcDone ∧
      dfu.type ≠ DfuUrcApplying := by
  unfold dfuIgnoredPreBoot at h
  cases hp : dfuUrcMakeFromString u with
  | error e => rw [hp] at h; cases h
  | ok dfu =>
    rw [hp] at h
    simp only [Bool.and_eq_true, bne_iff_ne, ne_eq, Bool.not_eq_true',
      beq_eq_false_iff_ne] at h
    exact ⟨dfu, rfl, h.1.1, h.1.2, h.2⟩

/-- A skipped pre-boot URC leaves the pre-boot loop where it was. -/
theorem waitForDfuFinish_cons_ignored (reboot : Bool) {u : Str}
    (h : dfuIgnoredPreBoot u = true) (rest phase2 : List Str) :
    waitForDfuFinish reboot (u :: rest) phase2 =
      waitForDfuFinish reboot rest phase2 := by
  obtain ⟨dfu, hp, h0, h1, h3⟩ := dfuIgnoredPreBoot_elim h
  simp only [waitForDfuFinish, hp, if_neg h0, if_neg h1, if_neg h3]

/-- A `Done` URC increments the post-boot count and continues. -/
theorem dfuPostBootLoop_cons_done {u : Str} (h : dfuDoneUrc u = true)
    (rest : List Str) (count : Nat) :
    dfuPostBootLoop (u :: rest) count = dfuPostBootLoop rest (count + 1) := by
  unfold dfuDoneUrc at h
  cases hp : dfuUrcMakeFromString u with
  | error e => rw [hp] at h; cases h
  | ok dfu =>
    rw [hp] at h
    simp only [beq_iff_eq] at h
    simp only [dfuPostBootLoop, hp, if_pos h]

/-- With only `Done` URCs post-boot, the loop just counts them all. -/
theorem dfuPostBootLoop_all_done (phase2 : List Str)
    (h : ∀ u ∈ phase2, dfuDoneUrc u = true) (count : Nat) :
    dfuPostBootLoop phase2 count =
      if count + phase2.length < 1 then .noFinalUrc else .ok := by
  induction phase2 generalizing count with
  | nil => simp [dfuPostBootLoop]
  | cons u rest ih =>
    rw [dfuPostBootLoop_cons_done (h u (List.mem_cons_self u rest)) rest count,
      ih (fun v hv => h v (List.mem_cons_of_mem u hv)) (count + 1)]
    simp only [List.length_cons]
    rw [if_neg (by omega), if_neg (by omega)]

/-- A `Failure` URC aborts the post-boot loop with that URC. -/
theorem dfuPostBootLoop_all_done_failure (pre post : List Str)
    (h : ∀ u ∈ pre, dfuDoneUrc u = true) (count : Nat) :
    dfuPostBootLoop (pre ++ (("DFU: 0,4").data) :: post) count =
      .dfuFailed (("DFU: 0,4").data) := by
  induction pre generalizing count with
  | nil =>
    have hp : dfuUrcMakeFromString (("DFU: 0,4").data) = .ok ⟨0, some 4⟩ := by
      decide
    simp only [List.nil_append, dfuPostBootLoop, hp]
    norm_num [DfuUrcDone, DfuUrcFailure]
  | cons u rest ih =>
    rw [List.cons_append,
      dfuPostBootLoop_cons_done (h u (List.mem_cons_self u rest)) _ count]
    exact ih (fun v hv => h v (List.mem_cons_of_mem u hv)) (count + 1)

/-- A post-boot URC that is neither `Done` nor `Failure` aborts the loop. -/
theorem dfuPostBootLoop_all_done_unexpected (pre post : List Str)
    (h : ∀ u ∈ pre, dfuDoneUrc u = true) (count : Nat) :
    dfuPostBootLoop (pre ++ (("DFU: 2,5").data) :: post) count =
      .unexpectedUrc (("DFU: 2,5").data) := by
  induction pre generalizing count with
  | nil =>
    have hp : dfuUrcMakeFromString (("DFU: 2,5").data) = .ok ⟨2, some 5⟩ := by
      decide
    simp only [List.nil_append, dfuPostBootLoop, hp]
    norm_num [DfuUrcDone, DfuUrcFailure]
  | cons u rest ih =>
    rw [List.cons_append,
      dfuPostBootLoop_cons_done (h u (List.mem_cons_self u rest)) _ count]
    exact ih (fun v hv => h v (List.mem_cons_of_mem u hv)) (count + 1)

/-- C4 (counterexample): in the pre-boot window a `Done` notification ends
the handshake successfully before a later `Failure` is ever read, so the
sequence `DFU: 1`, `DFU: 0,4` contains the failure notification `DFU: 0,4`
yet the operation succeeds instead of failing with code 4. -/
theorem dfu_handshake_done_masks_failure :
    (("DFU: 0,4").data) ∈ [("DFU: 1").data, ("DFU: 0,4").data] ∧
    waitForDfuFinish true [("DFU: 1").data, ("DFU: 0,4").data] [] =
      DfuOutcome.ok ∧
    DfuOutcome.ok ≠ DfuOutcome.dfuFailed (("DFU: 0,4").data) :=
  ⟨by decide, by decide, by decide⟩

/-- C4 (amended): the handshake consumes notifications in arrival order and
the first decisive event determines the outcome. Pre-boot, with only skipped
events before it, a `Failure` fails the operation with the failing line (and
its code) surfaced, and a `Done` succeeds immediately; `DFU: 3` then boot
then `DFU: 1` succeeds; post-boot (after `Applying`), with only `Done`
events seen so far, a `Failure` fails with the line surfaced and any other
non-`Done` event is an error, and when every post-boot event is `Done` the
operation succeeds iff at least one arrived. -/
theorem dfu_handshake_amended :
    dfuUrcMakeFromString (("DFU: 0,4").data) =
      .ok ⟨DfuUrcFailure, some 4⟩ ∧
    waitForDfuFinish true [("DFU: 3").data] [("DFU: 1").data] =
      DfuOutcome.ok ∧
    (∀ pre post phase2, (∀ u ∈ pre, dfuIgnoredPreBoot u = true) →
      waitForDfuFinish true (pre ++ (("DFU: 0,4").data) :: post) phase2 =
        DfuOutcome.dfuFailed (("DFU: 0,4").data)) ∧
    (∀ pre post phase2, (∀ u ∈ pre, dfuIgnoredPreBoot u = true) →
      waitForDfuFinish true (pre ++ (("DFU: 1").data) :: post) phase2 =
        DfuOutcome.ok) ∧
    (∀ phase2, (∀ u ∈ phase2, dfuDoneUrc u = true) →
      (waitForDfuFinish true [("DFU: 3").data] phase2 = DfuOutcome.ok ↔
        phase2 ≠ [])) ∧
    (∀ pre post, (∀ u ∈ pre, dfuDoneUrc u = true) →
      waitForDfuFinish true [("DFU: 3").data] (pre ++ (("DFU: 0,4").data) :: post) =
        DfuOutcome.dfuFailed (("DFU: 0,4").data)) ∧
    (∀ pre post, (∀ u ∈ pre, dfuDoneUrc u = true) →
      waitForDfuFinish true [("DFU: 3").data] (pre ++ (("DFU: 2,5").data) :: post) =
        DfuOutcome.unexpectedUrc (("DFU: 2,5").data)) := by
  have happly : ∀ phase2 : List Str,
      waitForDfuFinish true [("DFU: 3").data] phase2 =
        dfuPostBootLoop phase2 0 := by
    intro phase2
    have hp : dfuUrcMakeFromString (("DFU: 3").data) = .ok ⟨3, none⟩ := by
      decide
    simp only [waitForDfuFinish, hp]
    norm_num [DfuUrcFailure, DfuUrcDone, DfuUrcApplying]
  refine ⟨by decide, by decide, ?_, ?_, ?_, ?_, ?_⟩
  · intro pre post phase2 h
    induction pre with
    | nil =>
      have hp : dfuUrcMakeFromString (("DFU: 0,4").data) = .ok ⟨0, some 4⟩ := by
        decide
      simp only [List.nil_append, waitForDfuFinish, hp]
      norm_num [DfuUrcFailure]
    | cons u rest ih =>
      rw [List.cons_append,
        waitForDfuFinish_cons_ignored true (h u (List.mem_cons_self u rest))]
      exact ih (fun v hv => h v (List.mem_cons_of_mem u hv))
  · intro pre post phase2 h
    induction pre with
    | nil =>
      have hp : dfuUrcMakeFromString (("DFU: 1").data) = .ok ⟨1, none⟩ := by
        decide
      simp only [List.nil_append, waitForDfuFinish, hp]
      norm_num [DfuUrcFailure, DfuUrcDone]
    | cons u rest ih =>
      rw [List.cons_append,
        waitForDfuFinish_cons_ignored true (h u (List.mem_cons_self u rest))]
      exact ih (fun v hv => h v (List.mem_cons_of_mem u hv))
  · intro phase2 h
    rw [happly phase2, dfuPostBootLoop_all_done phase2 h 0]
    cases phase2 with
    | nil => simp
    | cons u rest => simp
  · intro pre post h
    rw [happly, dfuPostBootLoop_all_done_failure pre post h 0]
  · intro pre post h
    rw [happly, dfuPostBootLoop_all_done_unexpected pre post h 0]

/-- C4 (witness): the amended failure clause at the concrete pre-boot
sequence `DFU: 2,7` (Progress), `DFU: 0,4` (Failure, code 4). -/
theorem dfu_handshake_amended_witness :
    waitForDfuFinish true [("DFU: 2,7").data, ("DFU: 0,4").data] [] =
      DfuOutcome.dfuFailed (("DFU: 0,4").data) :=
  dfu_handshake_amended.2.2.1 [("DFU: 2,7").data] [] [] (by decide)

/-! ## TG1WWG socket factory (`nimbelink/cell/modem/tg1wwg/socket.py`)

The factory holds the free connection-id pool `availableConnIds`; each
`Socket.Instance` holds an optional `connId` and an `isOpen` flag. AT
traffic is modelled by the command strings written to the wire, and a
command's success/failure by a boolean standing for the truthiness of the
`Response` the modem returned. -/

/-- Decimal rendering of a `Nat` (Python f-string interpolation). -/
def natStr (n : Nat) : Str := (Nat.repr n).data

/-- Decimal rendering of an `Int` (Python f-string interpolation). -/
def intStr : Int → Str
  | .ofNat n => natStr n
  | .negSucc n => '-' :: natStr (n + 1)

/-- Python's rendering of an `Optional[int]` in an f-string (`None` prints
as the string `None`). -/
def showConnId : Option Nat → Str
  | some c => natStr c
  | none => ("None").data

/-- Embeds `Socket.Instance` state: the held connection id, if any, and the
`isOpen` flag set by `connect`. -/
structure TgInstance where
  connId : Option Nat
  isOpen : Bool
deriving DecidableEq, Repr

/-- Embeds `Socket.Instance.__init__`: pop the last id off the factory's free pool
if one is available, else hold no id; fresh instances are not open. Returns
the instance together with the factory's updated pool. -/
def tgInstanceInit (pool : List Nat) : TgInstance × List Nat :=
  match pool.getLast? with
  | some c => (⟨some c, false⟩, pool.dropLast)
  | none => (⟨none, false⟩, pool)

/-- Embeds `Socket.__call__` (after the context-activation precondition): make an
instance and return it, or `none` when it failed to obtain a connection
id. -/
def tgFactoryCall (pool : List Nat) : Option TgInstance × List Nat :=
  match tgInstanceInit pool with
  | (inst, pool') =>
      match inst.connId with
      | none => (none, pool')
      | some _ => (some inst, pool')

/-- Embeds `Socket.Instance.close`, with `shutdownOk` the truthiness of the
`AT#SH=<id>` response: a no-op without an id; on success the id goes back
to the pool and the instance forgets it; on failure the `AtError` message is
returned and — the raise preceding both mutations in the source — the
instance and pool are unchanged. -/
def tgClose (shutdownOk : Bool) (inst : TgInstance) (pool : List Nat) :
    Option Str × TgInstance × List Nat :=
  match inst.connId with
  | none => (none, inst, pool)
  | some c =>
      if shutdownOk then (none, ⟨none, inst.isOpen⟩, pool ++ [c])
      else (some (("Modem failed to shutdown socket").data), inst, pool)

/-- First step of `Socket.Instance.send`/`recv`: either an immediately
raised usage error (before any wire traffic) or the first command written
to the wire. -/
inductive WireOrUsage where
  | usage (msg : Str) : WireOrUsage
  | wire (data : Str) : WireOrUsage
deriving DecidableEq, Repr

/-- Embeds `Socket.Instance.send` up to its first wire write: usage errors for a
missing id or an unopened connection come first, then the
`AT#SSENDEXT=<id>,<len>` command is written. -/
def tgSend (connId : Option Nat) (isOpen : Bool) (length : Nat) : WireOrUsage :=
  match connId with
  | none => .usage (("Connection has to be initialized before sending data").data)
  | some c =>
      if !isOpen then
        .usage (("Connection must be open in order to send data").data)
      else
        .wire ((("AT#SSENDEXT=").data) ++ natStr c ++ [','] ++ natStr length ++
          (("\r\n").data))

/-- Embeds `Socket.Instance.recv` up to its first wire write: only the buffer-size
range is checked before the `AT#SRECV=<id>,<bufsize>` command is written —
there is no connection check, and a missing id is interpolated as `None`. -/
def tgRecv (connId : Option Nat) (_isOpen : Bool) (bufsize : Int) : WireOrUsage :=
  if bufsize < 1 ∨ bufsize > 1500 then
    .usage (("bufsize must be between 1 and 1500 bytes").data)
  else
    .wire ((("AT#SRECV=").data) ++ showConnId connId ++ [','] ++ intStr bufsize ++
      (("\r\n").data))

example : tgSend (some 1) false 5 =
    .usage (("Connection must be open in order to send data").data) := by decide
example : tgRecv (some 1) false 10 =
    .wire (("AT#SRECV=1,10\r\n").data) := by decide
example : tgRecv none false 10 =
    .wire (("AT#SRECV=None,10\r\n").data) := by decide

/-- A factory's whole id state: the free pool plus the `connId` of every
instance the factory has handed out (`none` once closed). -/
abbrev TgState := List Nat × List (Option Nat)

/-- The initial TG1WWG factory state: the fixed ten-id pool, no sessions. -/
def tg1wwgInitialState : TgState := ([1, 2, 3, 4, 5, 6, 7, 8, 9, 10], [])

/-- One `Socket.__call__` acting on the whole state. -/
def tgCreateStep (s : TgState) : TgState :=
  match tgFactoryCall s.1 with
  | (some inst, pool') => (pool', s.2 ++ [inst.connId])
  | (none, pool') => (pool', s.2)

/-- One `close` of the `i`-th handed-out session acting on the whole state
(successful or failed shutdown; closing an id-less session is a no-op). -/
def tgCloseStep (shutdownOk : Bool) (i : Nat) (s : TgState) : TgState :=
  match s.2.get? i with
  | some (some c) =>
      if shutdownOk then (s.1 ++ [c], s.2.set i none) else s
  | _ => s

/-- The factory's id-relevant transitions (`connect` touches only the
`isOpen` flag, never an id, so it does not appear). -/
inductive TgStep : TgState → TgState → Prop where
  | create (s : TgState) : TgStep s (tgCreateStep s)
  | close (shutdownOk : Bool) (i : Nat) (s : TgState) :
      TgStep s (tgCloseStep shutdownOk i s)

/-- The ids held by live sessions. -/
def tgLiveIds (s : TgState) : List Nat := s.2.filterMap id

/-- The pool invariant: free ids and live ids are pairwise distinct. -/
def TgInv (s : TgState) : Prop := (s.1 ++ tgLiveIds s).Nodup

instance (s : TgState) : Decidable (TgInv s) := by
  unfold TgInv
  infer_instance

/-- Nulling one held id removes exactly one occurrence from the live ids. -/
theorem tgLiveIds_set_none (l : List (Option Nat)) (i : Nat) (c : Nat)
    (h : l.get? i = some (some c)) :
    (l.filterMap id).Perm (c :: (l.set i none).filterMap id) := by
  induction l generalizing i with
  | nil => simp at h
  | cons x t ih =>
    cases i with
    | zero =>
      simp only [List.get?] at h
      cases h
      simp [List.set]
    | succ j =>
      simp only [List.get?] at h
      cases x with
      | none => simpa using ih j h
      | some a =>
        have hstep := (ih j h).cons a
        refine hstep.trans ?_
        simpa using List.Perm.swap c a ((t.set j none).filterMap id)

/-- Each factory transition preserves the no-shared-id invariant. -/
theorem tgStep_preserves (s s' : TgState) (hinv : TgInv s)
    (hstep : TgStep s s') : TgInv s' := by
  cases hstep with
  | create =>
    unfold tgCreateStep tgFactoryCall tgInstanceInit
    cases hl : s.1.getLast? with
    | none => simpa using hinv
    | some c =>
      have hsplit : s.1.dropLast ++ [c] = s.1 :=
        List.dropLast_append_getLast? c hl
      simp only [TgInv, tgLiveIds, List.filterMap_append]
      simp only [List.filterMap, id, Option.some.injEq]
      have hperm :
          (s.1.dropLast ++ (s.2.filterMap id ++ [c])).Perm
            (s.1 ++ s.2.filterMap id) := by
        refine (List.Perm.append_left s.1.dropLast List.perm_append_comm).trans ?_
        rw [← List.append_assoc, hsplit]
      exact hperm.nodup_iff.mpr hinv
  | close ok i =>
    unfold tgCloseStep
    cases hg : s.2.get? i with
    | none => simpa using hinv
    | some oc =>
      cases oc with
      | none => simpa using hinv
      | some c =>
        cases ok with
        | false => simpa using hinv
        | true =>
          simp only [if_pos]
          have hperm := tgLiveIds_set_none s.2 i c hg
          have hmid : (s.1 ++ (c :: (s.2.set i none).filterMap id)).Nodup :=
            (List.Perm.append_left s.1 hperm).nodup_iff.mp hinv
          simpa [TgInv, tgLiveIds, List.append_assoc] using hmid

/-- C5: the TG1WWG socket factory starts from the fixed ten-id pool;
creating a session yields no usable session exactly when the pool is empty;
closing a live session appends its id back to the pool and the very next
create hands out exactly that id (and cannot hand it out while it is held);
and every create/close transition preserves the invariant that free ids and
live session ids are pairwise distinct, so no two live sessions of the
factory ever hold the same id. -/
theorem tg1wwg_socket_id_pool :
    tg1wwgInitialState = ([1, 2, 3, 4, 5, 6, 7, 8, 9, 10],
      ([] : List (Option Nat))) ∧
    TgInv tg1wwgInitialState ∧
    (∀ pool : List Nat, (tgFactoryCall pool).1 = none ↔ pool = []) ∧
    (∀ (pool : List Nat) (c : Nat) (o : Bool),
      tgClose true ⟨some c, o⟩ pool = (none, ⟨none, o⟩, pool ++ [c]) ∧
      tgFactoryCall (pool ++ [c]) = (some ⟨some c, false⟩, pool)) ∧
    (∀ (pool : List Nat) (c : Nat), c ∉ pool →
      ∀ inst : TgInstance, (tgFactoryCall pool).1 = some inst →
        inst.connId ≠ some c) ∧
    (∀ s s' : TgState, TgInv s → TgStep s s' → TgInv s') ∧
    (∀ s : TgState, TgInv s → (tgLiveIds s).Nodup) := by
  refine ⟨rfl, by decide, ?_, ?_, ?_, tgStep_preserves, ?_⟩
  · intro pool
    cases pool with
    | nil => simp [tgFactoryCall, tgInstanceInit]
    | cons a t =>
      have hne : a :: t ≠ [] := by simp
      obtain ⟨c, hc⟩ := Option.isSome_iff_exists.mp
        (List.getLast?_isSome.mpr hne)
      simp [tgFactoryCall, tgInstanceInit, hc]
  · intro pool c o
    constructor
    · rfl
    · simp [tgFactoryCall, tgInstanceInit, List.getLast?_concat,
        List.dropLast_concat]
  · intro pool c hc inst hinst
    unfold tgFactoryCall tgInstanceInit at hinst
    cases hl : pool.getLast? with
    | none => rw [hl] at hinst; cases hinst
    | some d =>
      rw [hl] at hinst
      simp only [Option.some.injEq] at hinst
      have hd : d ∈ pool := List.mem_of_mem_getLast? hl
      rw [← hinst]
      intro hcontra
      simp only [Option.some.injEq] at hcontra
      exact hc (hcontra ▸ hd)
  · intro s hinv
    exact (TgInv.eq_1 s ▸ hinv).of_append_right

/-- C5 (witness): invariant preservation applied at the concrete state
(pool `[1, 2]`, one live session with id 3) under one create step, and the
reuse-exclusion clause at a concrete pool. -/
theorem tg1wwg_socket_id_pool_witness :
    TgInv (tgCreateStep ([1, 2], [some 3])) ∧
    (TgInstance.mk (some 5) false).connId ≠ some 7 :=
  ⟨tg1wwg_socket_id_pool.2.2.2.2.2.1 ([1, 2], [some 3])
      (tgCreateStep ([1, 2], [some 3])) (by decide)
      (TgStep.create ([1, 2], [some 3])),
   tg1wwg_socket_id_pool.2.2.2.2.1 [5] 7 (by decide) ⟨some 5, false⟩
      (by decide)⟩

/-- C8 (counterexample): `recv` on a not-yet-connected session (valid
buffer size, `isOpen = false`) issues the `AT#SRECV` command on the wire
instead of failing with a usage error. -/
theorem tg_recv_no_connection_check :
    tgRecv (some 1) false 10 = WireOrUsage.wire (("AT#SRECV=1,10\r\n").data) := by
  decide

/-- C8 (amended): `send` on a not-yet-connected session fails immediately
with a usage error before any wire traffic (missing-id check first, then
the not-open check); `recv` checks only that the buffer size lies in
1..1500 — failing with a usage error otherwise — and issues the
`AT#SRECV` command on the wire even when the session is not connected. -/
theorem tg_send_recv_usage_checks :
    (∀ n : Nat, tgSend none false n =
      .usage (("Connection has to be initialized before sending data").data)) ∧
    (∀ (c n : Nat), tgSend (some c) false n =
      .usage (("Connection must be open in order to send data").data)) ∧
    (∀ (cid : Option Nat) (o : Bool) (b : Int), b < 1 ∨ b > 1500 →
      tgRecv cid o b =
        .usage (("bufsize must be between 1 and 1500 bytes").data)) ∧
    (∀ (cid : Option Nat) (b : Int), 1 ≤ b → b ≤ 1500 →
      tgRecv cid false b =
        .wire ((("AT#SRECV=").data) ++ showConnId cid ++ [','] ++ intStr b ++
          (("\r\n").data))) := by
  refine ⟨fun n => rfl, fun c n => rfl, ?_, ?_⟩
  · intro cid o b hb
    rw [tgRecv, if_pos hb]
  · intro cid b h1 h2
    rw [tgRecv, if_neg (by omega)]

/-- C8 (witness): the amended clauses at concrete inputs — an
out-of-range receive and an unconnected in-range receive. -/
theorem tg_send_recv_usage_checks_witness :
    tgRecv (some 1) true 0 =
      .usage (("bufsize must be between 1 and 1500 bytes").data) ∧
    tgRecv (some 2) false 7 =
      .wire ((("AT#SRECV=").data) ++ showConnId (some 2) ++ [','] ++ intStr 7 ++
        (("\r\n").data)) :=
  ⟨tg_send_recv_usage_checks.2.2.1 (some 1) true 0 (by decide),
   tg_send_recv_usage_checks.2.2.2 (some 2) 7 (by decide) (by decide)⟩

/-- C10: `close` on a live session whose `AT#SH` shutdown command reports a
non-OK result raises the `AtError` and leaves the session state unchanged —
the id is not appended to the factory's free pool and the instance still
holds it — so the session remains live and a retried close with a
successful shutdown completes normally. -/
theorem tg_close_failure_preserves_session :
    ∀ (pool : List Nat) (c : Nat) (o : Bool),
      tgClose false ⟨some c, o⟩ pool =
        (some (("Modem failed to shutdown socket").data), ⟨some c, o⟩, pool) ∧
      tgClose true ⟨some c, o⟩ pool = (none, ⟨none, o⟩, pool ++ [c]) :=
  fun _ _ _ => ⟨rfl, rfl⟩

/-! ## Response echo filtering (`nl_cell/at/response.py`) -/

/-- Embeds `Response._filterCommand`: when the output contains the command
anywhere, the source drops the first `len(command)` characters (not the
occurrence it found) and then left-strips all whitespace; otherwise the
output is returned untouched. -/
def filterCommand (command output : Str) : Str :=
  match strFind command output with
  | none => output
  | some _ => lstripWS (output.drop command.length)

/-! ## Notification waits (`nl_cell/at/interface.py`)

`getUrc` filters lines with `re.match(pattern, line)`. Every pattern this
code base passes is a literal (no unescaped regex metacharacters), for
which `re.match` succeeds exactly when the pattern is a prefix of the line
and `re.search` exactly when it is a substring; the two are embedded as
such. The line stream delivered within the timeout is the input list, and
`none` models the `CommError` raised when it is exhausted. -/

/-- Embeds `re.match(p, line)` for a literal pattern: anchored at the line start. -/
def pyLiteralMatch (p line : Str) : Bool := strStartsWith p line

/-- Embeds `re.search(p, line)` for a literal pattern: anywhere in the line. -/
def pyLiteralSearch (p line : Str) : Bool := strContains p line

/-- Embeds `Interface.getUrc`: skip lines the pattern does not `re.match`, return
the first matching line right-stripped, fail when the stream ends. -/
def getUrc (pattern : Option Str) : List Str → Option Str
  | [] => none
  | line :: rest =>
      match pattern with
      | some p =>
          if pyLiteralMatch p line then some (rstripWS line)
          else getUrc pattern rest
      | none => some (rstripWS line)

/-- Strip only trailing line endings (the spec's words for the claim). -/
def rstripLineEndings (s : Str) : Str :=
  (s.reverse.dropWhile (fun c => c == '\r' || c == '\n')).reverse

/-- The notification wait exactly as the claim words it (for comparison
with `getUrc`): the first line in which the pattern matches anywhere
(unanchored search), trailing line endings stripped. -/
def getUrcSpec (pattern : Option Str) : List Str → Option Str
  | [] => none
  | line :: rest =>
      match pattern with
      | some p =>
          if pyLiteralSearch p line then some (rstripLineEndings line)
          else getUrcSpec pattern rest
      | none => some (rstripLineEndings line)

example : getUrc (some (("DFU: ").data)) [("DFU: 3\r\n").data] =
    some (("DFU: 3").data) := by decide

/-! ## SRC7611 socket receive (`nimbelink/cell/modem/src7611/socket.py`) -/

/-- Embeds `Socket.EOFPattern`. -/
def EOFPattern : Str := ("--EOF--Pattern--").data

/-- The payload extraction of `Socket.Instance.recv`: find the first
`CONNECT`, step 9 characters past it (over `CONNECT\r\n`), find the last
occurrence of the EOF sentinel, and slice between the two. -/
def src7611RecvExtract (output : Str) : Except Str Str :=
  match strFind (("CONNECT").data) output with
  | none =>
      .error (("Unable to find starting CONNECT in output from socket receive operation").data)
  | some start =>
      match strRfind EOFPattern output with
      | none =>
          .error (("Unable to find EOF pattern in output from socket receive operation").data)
      | some e => .ok ((output.drop (start + 9)).take (e - (start + 9)))

example : src7611RecvExtract (("CONNECT\r\nhello--EOF--Pattern--").data) =
    .ok (("hello").data) := by decide

/-- A string starts with itself followed by anything. -/
theorem strStartsWith_append (p z : Str) : strStartsWith p (p ++ z) = true := by
  induction p with
  | nil => rfl
  | cons a as ih => simp [strStartsWith, ih]

/-- A prefix is no longer than the string it prefixes. -/
theorem strStartsWith_length {p s : Str} (h : strStartsWith p s = true) :
    p.length ≤ s.length := by
  induction p generalizing s with
  | nil => simp
  | cons a as ih =>
    cases s with
    | nil => cases h
    | cons b bs =>
      simp only [strStartsWith, Bool.and_eq_true] at h
      have := ih h.2
      simp only [List.length_cons]
      omega

/-- Python `find` locates a pattern sitting at the front at index 0. -/
theorem strFind_of_startsWith {p s : Str} (h : strStartsWith p s = true) :
    strFind p s = some 0 := by
  cases s <;> simp [strFind, h]

/-- No occurrence fits inside a strictly shorter string. -/
theorem strRfind_short {p s : Str} (h : s.length < p.length) :
    strRfind p s = none := by
  induction s with
  | nil =>
    cases p with
    | nil => simp at h
    | cons a as => simp [strRfind, strStartsWith]
  | cons b bs ih =>
    have h2 : bs.length < p.length := by
      simp only [List.length_cons] at h
      omega
    have hsw : strStartsWith p (b :: bs) = false := by
      cases hq : strStartsWith p (b :: bs) with
      | false => rfl
      | true =>
        have := strStartsWith_length hq
        omega
    simp [strRfind, ih h2, hsw]

/-- Python `rfind` of a nonempty pattern over `pre ++ pattern` is `pre.length`:
the trailing copy is the last possible occurrence. -/
theorem strRfind_append_self (p pre : Str) (hp : p ≠ []) :
    strRfind p (pre ++ p) = some pre.length := by
  induction pre with
  | nil =>
    cases p with
    | nil => exact absurd rfl hp
    | cons a as =>
      have hshort : strRfind (a :: as) as = none := strRfind_short (by simp)
      have hsw : strStartsWith (a :: as) (a :: as) = true := by
        simpa using strStartsWith_append (a :: as) []
      simp [strRfind, hshort, hsw]
  | cons b bs ih =>
    simp only [List.cons_append, strRfind, List.append_eq, ih, List.length_cons]

/-- Left-stripping does nothing when the first character is not blank. -/
theorem lstripWS_no_leading (rest : Str)
    (h : ∀ c, rest.head? = some c → pySpace c = false) :
    lstripWS rest = rest := by
  cases rest with
  | nil => rfl
  | cons c t => simp [lstripWS, List.dropWhile, h c rfl]

/-- C6 (counterexample): for the command `AT+X` and the output
`junk\r\nAT+X\r\ndata` — which contains the echoed command — the filter
drops the output's first four characters rather than the echoed copy,
reporting `AT+X\r\ndata` instead of the claimed `junk\r\ndata`. -/
theorem filter_command_not_positional :
    strContains (("AT+X").data) (("junk\r\nAT+X\r\ndata").data) = true ∧
    filterCommand (("AT+X").data) (("junk\r\nAT+X\r\ndata").data) =
      (("AT+X\r\ndata").data) ∧
    (("AT+X\r\ndata").data) ≠ (("junk\r\ndata").data) :=
  ⟨by decide, by decide, by decide⟩

/-- C6 (amended): output not containing the command is reported unchanged;
output containing it anywhere is reported as the output minus its first
`len(command)` characters with all leading whitespace then stripped — which
coincides with removing the echoed command and its trailing line endings
exactly when the echo sits at the start of the output and the remainder
does not itself begin with whitespace. -/
theorem filter_command_amended :
    (∀ command output : Str, strFind command output = none →
      filterCommand command output = output) ∧
    (∀ (command output : Str) (i : Nat), strFind command output = some i →
      filterCommand command output = lstripWS (output.drop command.length)) ∧
    (∀ command rest : Str, (∀ c, rest.head? = some c → pySpace c = false) →
      filterCommand command (command ++ ('\r' :: '\n' :: rest)) = rest) := by
  refine ⟨?_, ?_, ?_⟩
  · intro command output h
    simp [filterCommand, h]
  · intro command output i h
    simp [filterCommand, h]
  · intro command rest h
    have hfind := strFind_of_startsWith
      (strStartsWith_append command ('\r' :: '\n' :: rest))
    simp only [filterCommand, hfind]
    rw [List.drop_left]
    have hr : pySpace '\r' = true := by decide
    have hn : pySpace '\n' = true := by decide
    simp only [lstripWS, List.dropWhile, hr, hn]
    exact lstripWS_no_leading rest h

/-- C6 (witness): the amended clauses at concrete inputs — an echo at the
start of the output, and an output without the echo. -/
theorem filter_command_amended_witness :
    filterCommand (("AT+X").data) ((("AT+X").data) ++
      ('\r' :: '\n' :: (("data").data))) = (("data").data) ∧
    filterCommand (("AT+X").data) (("unrelated").data) =
      (("unrelated").data) :=
  ⟨filter_command_amended.2.2 (("AT+X").data) (("data").data)
      (fun c hc => by cases hc; decide),
   filter_command_amended.1 (("AT+X").data) (("unrelated").data) (by decide)⟩

/-- C7 (counterexample): with pattern `DFU:` and the single arriving line
`xDFU: 1\r\n`, the pattern occurs in the line (an unanchored search finds
it, and the claim-worded wait returns the line), but `getUrc` — which
anchors the pattern at the line start via `re.match` — skips the line and
times out. -/
theorem geturc_anchored_not_search :
    pyLiteralSearch (("DFU:").data) (("xDFU: 1\r\n").data) = true ∧
    getUrcSpec (some (("DFU:").data)) [("xDFU: 1\r\n").data] =
      some (("xDFU: 1").data) ∧
    getUrc (some (("DFU:").data)) [("xDFU: 1\r\n").data] = none :=
  ⟨by decide, by decide, by decide⟩

/-- C7 (amended): `getUrc` with a pattern returns the first line which the
pattern matches at the line's start (Python `re.match` anchoring), with
trailing whitespace — line endings included — stripped; non-matching lines
are consumed and skipped, never returned; and when no arriving line
matches, the communication-timeout error is raised. -/
theorem geturc_amended :
    (∀ (p : Str) (pre : List Str) (line : Str) (post : List Str),
      (∀ l ∈ pre, pyLiteralMatch p l = false) →
      pyLiteralMatch p line = true →
      getUrc (some p) (pre ++ line :: post) = some (rstripWS line)) ∧
    (∀ (p : Str) (lines : List Str),
      (∀ l ∈ lines, pyLiteralMatch p l = false) →
      getUrc (some p) lines = none) := by
  constructor
  · intro p pre line post hpre hline
    induction pre with
    | nil => simp [getUrc, hline]
    | cons l rest ih =>
      rw [List.cons_append]
      simp only [getUrc, hpre l (List.mem_cons_self l rest), if_false,
        Bool.false_eq_true]
      exact ih (fun v hv => hpre v (List.mem_cons_of_mem l hv))
  · intro p lines h
    induction lines with
    | nil => rfl
    | cons l rest ih =>
      simp only [getUrc, h l (List.mem_cons_self l rest), if_false,
        Bool.false_eq_true]
      exact ih (fun v hv => h v (List.mem_cons_of_mem l hv))

/-- C7 (witness): the amended match clause at pattern `DFU: `, one skipped
line `x`, and the matching line `DFU: 1\r\n`. -/
theorem geturc_amended_witness :
    getUrc (some (("DFU: ").data)) [("x").data, ("DFU: 1\r\n").data] =
      some (rstripWS (("DFU: 1\r\n").data)) :=
  geturc_amended.1 (("DFU: ").data) [("x").data] (("DFU: 1\r\n").data) []
    (by decide) (by decide)

/-- C9: for every payload, the receive extraction on raw output text
`CONNECT\r\n<payload>--EOF--Pattern--` returns exactly the payload: the
text between the `CONNECT` marker plus its line ending and the last
occurrence of the sentinel, both found by substring search. -/
theorem src7611_recv_extracts_payload (payload : Str) :
    src7611RecvExtract ((("CONNECT\r\n").data) ++ payload ++ EOFPattern) =
      .ok payload := by
  have hshape : (("CONNECT\r\n").data) ++ payload ++ EOFPattern =
      (("CONNECT").data) ++ (('\r' :: '\n' :: payload) ++ EOFPattern) := by
    simp
  have hsw : strStartsWith (("CONNECT").data)
      ((("CONNECT\r\n").data) ++ payload ++ EOFPattern) = true := by
    rw [hshape]
    exact strStartsWith_append _ _
  have hfind := strFind_of_startsWith hsw
  have hrfind : strRfind EOFPattern
      ((("CONNECT\r\n").data) ++ payload ++ EOFPattern) =
      some (9 + payload.length) := by
    have h := strRfind_append_self EOFPattern
      ((("CONNECT\r\n").data) ++ payload) (by decide)
    have hlen : ((("CONNECT\r\n").data) ++ payload).length =
        9 + payload.length := by
      simp only [List.length_append]
      norm_num
    rw [List.append_assoc] at h ⊢
    rw [hlen] at h
    rw [← List.append_assoc] at h ⊢
    exact h
  simp only [src7611RecvExtract, hfind, hrfind, Nat.zero_add]
  have hdrop : ((("CONNECT\r\n").data) ++ payload ++ EOFPattern).drop 9 =
      payload ++ EOFPattern := by
    rw [List.append_assoc]
    exact List.drop_left' (by decide)
  rw [hdrop]
  have harith : 9 + payload.length - 9 = payload.length := by omega
  rw [harith, List.take_left]
